import Mathlib

/-!
Verification of the corpus assembly pipeline in `src/data/generate_questions.py`.

The script builds a list `questions` of question records by iterating over
literal content pools (assigning a running `question_id` starting at 1 as it
appends), pads the list to 200 records by cycling through a filler pool
indexed by `len(questions) % len(easy_fillers)`, truncates to the first 200
records, and prints summary counts computed by scanning the final list.

Everything below is a direct shallow embedding of that script: the string
pools are transcribed verbatim, each `for`-loop that appends records becomes
a fold (`expandPool`), the `while len(questions) < 200` loop becomes the
recursive `padLoop`, and the final document is `outputQuestions`.
-/

set_option maxRecDepth 4000

/-- The `type` field of a record: `"code"` or `"name"` in the script. -/
inductive QType where
  | code : QType
  | name : QType
deriving DecidableEq, Repr, Inhabited

/-- One question record, with exactly the fields the script writes into each
appended dict: `id, type, language, prompt, correct_complexity, explanation,
difficulty, highlight_spans`. -/
structure Question where
  id : Nat
  type : QType
  language : Option String
  prompt : String
  correct_complexity : String
  explanation : String
  difficulty : String
  highlight_spans : List (Nat × Nat)
deriving DecidableEq, Repr, Inhabited

/-- `isPre sub l` is true iff `sub` is a prefix of `l` (character lists). -/
def isPre : List Char → List Char → Bool
  | [], _ => true
  | _ :: _, [] => false
  | a :: as, b :: bs => a == b && isPre as bs

/-- `listContains sub hay` is true iff `sub` occurs contiguously in `hay`,
the semantics of Python's `sub in hay` on strings. -/
def listContains (sub : List Char) : List Char → Bool
  | [] => isPre sub []
  | c :: cs => isPre sub (c :: cs) || listContains sub cs

/-- Python's substring test `sub in s`. -/
def strContains (s sub : String) : Bool :=
  listContains sub.data s.data

/-- The language-inference expression used verbatim in the O(log n) and O(n²)
code loops: `"cpp" if "cout" in code or "int i" in code else "python"`. -/
def langOf (code : String) : String :=
  if strContains code "cout" || strContains code "int i" then "cpp" else "python"
def o1_code_snippets : List (String × String) := [
  ("def get_first(arr):\n    return arr[0]", "Array access is O(1) - direct index lookup."),
  ("def swap(a, b):\n    temp = a\n    a = b\n    b = temp\n    return a, b", "Variable swaps are O(1) - constant operations."),
  ("def check_even(n):\n    return n % 2 == 0", "Modulo and comparison are O(1) operations."),
  ("x = dict[key]", "Hash table lookup averages O(1)."),
  ("result = a + b * c", "Arithmetic operations are O(1).")
]

def o1_algorithms : List (String × String) := [
  ("Accessing an array element by index", "Direct memory access is O(1)."),
  ("Hash table lookup (average case)", "Hash computation and bucket access is O(1) average."),
  ("Stack push operation", "Adding to top of stack is O(1)."),
  ("Queue dequeue operation", "Removing from front of queue is O(1)."),
  ("Checking if number is even", "Single modulo operation is O(1).")
]

def ologn_code_snippets : List (String × String) := [
  ("def binary_search(arr, target):\n    left, right = 0, len(arr)-1\n    while left <= right:\n        mid = (left + right) // 2\n        if arr[mid] == target:\n            return mid\n        elif arr[mid] < target:\n            left = mid + 1\n        else:\n            right = mid - 1\n    return -1", "Binary search halves search space each iteration → O(log n)."),
  ("def count_bits(n):\n    count = 0\n    while n > 0:\n        n //= 2\n        count += 1\n    return count", "Dividing by 2 each iteration → O(log n)."),
  ("def power_of_two(n):\n    count = 0\n    i = 1\n    while i <= n:\n        i *= 2\n        count += 1\n    return count", "Multiplying by 2 each iteration → O(log n)."),
  ("for(int i = 1; i <= n; i *= 2) \x7b\n    cout << i << endl;\n\x7d", "Loop with i *= 2 runs log₂(n) times."),
  ("while(n > 1) \x7b\n    n /= 2;\n\x7d", "Division by 2 pattern → O(log n).")
]

def ologn_algorithms : List (String × String) := [
  ("Binary Search", "Halves search space each step → O(log n)."),
  ("Balanced BST Search", "Height of balanced tree is O(log n)."),
  ("Finding height of binary tree", "Traverses one path from root to leaf → O(log n) for balanced."),
  ("Skip List Search", "Probabilistically balanced structure → O(log n) average."),
  ("Interpolation Search (average)", "Improves on binary search for uniform data → O(log log n) average, but O(log n) typical.")
]

def on_code_snippets : List (String × String) := [
  ("def sum_array(arr):\n    total = 0\n    for num in arr:\n        total += num\n    return total", "Single loop through n elements → O(n)."),
  ("def find_max(arr):\n    max_val = arr[0]\n    for i in range(1, len(arr)):\n        if arr[i] > max_val:\n            max_val = arr[i]\n    return max_val", "One pass through array → O(n)."),
  ("def linear_search(arr, target):\n    for i in range(len(arr)):\n        if arr[i] == target:\n            return i\n    return -1", "Worst case checks all n elements → O(n)."),
  ("for i in range(n):\n    print(i)", "Simple loop from 0 to n → O(n)."),
  ("def reverse_string(s):\n    return s[::-1]", "String reversal requires touching all n characters → O(n)."),
  ("def count_vowels(s):\n    count = 0\n    for char in s:\n        if char in \x27aeiou\x27:\n            count += 1\n    return count", "Single pass through string → O(n)."),
  ("arr.append(x)\nfor item in arr:\n    process(item)", "Two sequential loops: O(1) + O(n) = O(n).")
]

def on_algorithms : List (String × String) := [
  ("Linear Search", "May need to check all n elements."),
  ("Finding minimum in unsorted array", "Must examine all n elements."),
  ("Counting elements in array", "Single traversal → O(n)."),
  ("Array traversal", "Visiting each element once → O(n)."),
  ("Linked list traversal", "Following n pointers → O(n).")
]

def onlogn_code_snippets : List (String × String) := [
  ("def merge_sort(arr):\n    if len(arr) <= 1:\n        return arr\n    mid = len(arr) // 2\n    left = merge_sort(arr[:mid])\n    right = merge_sort(arr[mid:])\n    return merge(left, right)", "Divides in half (log n levels) and merges (n work per level) → O(n log n)."),
  ("def quick_sort(arr):\n    if len(arr) <= 1:\n        return arr\n    pivot = arr[len(arr)//2]\n    left = [x for x in arr if x < pivot]\n    middle = [x for x in arr if x == pivot]\n    right = [x for x in arr if x > pivot]\n    return quick_sort(left) + middle + quick_sort(right)", "Average case partitions log n times with n work each → O(n log n)."),
  ("arr.sort()", "Python\x27s Timsort is O(n log n)."),
  ("sorted_arr = sorted(arr)", "Built-in sorted() uses O(n log n) algorithm.")
]

def onlogn_algorithms : List (String × String) := [
  ("Merge Sort", "Divide-and-conquer: log n levels, n work per level."),
  ("Quick Sort (average case)", "Partitioning is O(n), recursion depth is O(log n) on average."),
  ("Heap Sort", "Build heap O(n) + extract n times with O(log n) heapify."),
  ("Timsort (Python\x27s sort)", "Hybrid merge/insertion sort → O(n log n)."),
  ("Sorting using comparison-based algorithm", "Lower bound for comparison sorts is O(n log n).")
]

def on2_code_snippets : List (String × String) := [
  ("def bubble_sort(arr):\n    n = len(arr)\n    for i in range(n):\n        for j in range(n-1):\n            if arr[j] > arr[j+1]:\n                arr[j], arr[j+1] = arr[j+1], arr[j]", "Nested loops: outer n times, inner n times → O(n²)."),
  ("def selection_sort(arr):\n    for i in range(len(arr)):\n        min_idx = i\n        for j in range(i+1, len(arr)):\n            if arr[j] < arr[min_idx]:\n                min_idx = j\n        arr[i], arr[min_idx] = arr[min_idx], arr[i]", "For each element, scan remaining array → O(n²)."),
  ("def print_pairs(arr):\n    for i in range(len(arr)):\n        for j in range(len(arr)):\n            print(arr[i], arr[j])", "All pairs of n elements → n × n = O(n²)."),
  ("for(int i = 0; i < n; i++) \x7b\n    for(int j = 0; j < n; j++) \x7b\n        matrix[i][j] = i + j;\n    \x7d\n\x7d", "Filling n×n matrix → O(n²)."),
  ("def has_duplicate(arr):\n    for i in range(len(arr)):\n        for j in range(i+1, len(arr)):\n            if arr[i] == arr[j]:\n                return True\n    return False", "Comparing each pair: n(n-1)/2 comparisons → O(n²).")
]

def on2_algorithms : List (String × String) := [
  ("Bubble Sort", "Compares adjacent elements n times → O(n²)."),
  ("Selection Sort", "Finds minimum n times, scanning n elements → O(n²)."),
  ("Insertion Sort (worst case)", "May shift up to n elements for each of n inserts → O(n²)."),
  ("Checking all pairs in array", "n choose 2 pairs = n(n-1)/2 → O(n²)."),
  ("Naive string matching", "For m-length pattern in n-length text, worst case O(mn) ≈ O(n²) when m≈n.")
]

def on3_code_snippets : List (String × String) := [
  ("for i in range(n):\n    for j in range(n):\n        for k in range(n):\n            print(i, j, k)", "Three nested loops, each running n times → n×n×n = O(n³)."),
  ("def matrix_multiply(A, B):\n    n = len(A)\n    C = [[0]*n for _ in range(n)]\n    for i in range(n):\n        for j in range(n):\n            for k in range(n):\n                C[i][j] += A[i][k] * B[k][j]\n    return C", "Standard matrix multiplication: three nested loops → O(n³)."),
  ("def all_triplets(arr):\n    result = []\n    for i in range(len(arr)):\n        for j in range(len(arr)):\n            for k in range(len(arr)):\n                result.append((arr[i], arr[j], arr[k]))\n    return result", "Generating all triplets from n elements → n³ combinations.")
]

def on3_algorithms : List (String × String) := [
  ("Matrix Multiplication (naive)", "Three nested loops for n×n matrices → O(n³)."),
  ("Floyd-Warshall Algorithm", "All-pairs shortest path with three nested loops → O(n³)."),
  ("Finding all triplets in array", "Checking all combinations of 3 elements → O(n³).")
]

def o2n_code_snippets : List (String × String) := [
  ("def fibonacci(n):\n    if n <= 1:\n        return n\n    return fibonacci(n-1) + fibonacci(n-2)", "Each call makes 2 recursive calls → binary tree of calls → O(2ⁿ)."),
  ("def power_set(arr):\n    if len(arr) == 0:\n        return [[]]\n    elem = arr[0]\n    rest = power_set(arr[1:])\n    return rest + [subset + [elem] for subset in rest]", "Generates all 2ⁿ subsets → O(2ⁿ)."),
  ("def solve_n_queens(n, row=0):\n    if row == n:\n        return 1\n    count = 0\n    for col in range(n):\n        if is_safe(row, col):\n            count += solve_n_queens(n, row+1)\n    return count", "Tries all possible placements → exponential backtracking.")
]

def o2n_algorithms : List (String × String) := [
  ("Fibonacci (naive recursive)", "T(n) = T(n-1) + T(n-2) → exponential growth."),
  ("Tower of Hanoi", "T(n) = 2T(n-1) + 1 → O(2ⁿ)."),
  ("Generating all subsets", "2ⁿ possible subsets of n elements."),
  ("Traveling Salesman (brute force)", "Tries all permutations → factorial or exponential."),
  ("Subset Sum (brute force)", "Checks all 2ⁿ subsets.")
]

def ofact_code_snippets : List (String × String) := [
  ("def permutations(arr):\n    if len(arr) <= 1:\n        return [arr]\n    result = []\n    for i in range(len(arr)):\n        rest = arr[:i] + arr[i+1:]\n        for perm in permutations(rest):\n            result.append([arr[i]] + perm)\n    return result", "Generates all n! permutations."),
  ("def traveling_salesman_brute(cities):\n    min_cost = float(\x27inf\x27)\n    for perm in all_permutations(cities):\n        cost = calculate_cost(perm)\n        min_cost = min(min_cost, cost)\n    return min_cost", "Tries all n! orderings of cities.")
]

def ofact_algorithms : List (String × String) := [
  ("Generating all permutations", "n! permutations of n elements."),
  ("Traveling Salesman (exact brute force)", "Checks all n! routes."),
  ("Bogosort", "Randomly shuffles until sorted → O(n!) average.")
]

def cpp_questions : List (String × String × String × String) := [
  ("vector<int> v;\nfor(int i = 0; i < n; i++) \x7b\n    v.push_back(i);\n\x7d", "Single loop with push_back (amortized O(1)) → O(n).", "O(n)", "easy"),
  ("int sum = 0;\nfor(int i = 0; i < n; i++) \x7b\n    sum += arr[i];\n\x7d", "Single loop adding elements → O(n).", "O(n)", "easy"),
  ("for(int i = 0; i < n; i++) \x7b\n    for(int j = i; j < n; j++) \x7b\n        sum += arr[i] + arr[j];\n    \x7d\n\x7d", "Nested loop with inner starting at i → n + (n-1) + ... + 1 = O(n²).", "O(n²)", "medium"),
  ("priority_queue<int> pq;\nfor(int i = 0; i < n; i++) \x7b\n    pq.push(arr[i]);\n\x7d", "n insertions into heap, each O(log n) → O(n log n).", "O(n log n)", "medium"),
  ("map<int, int> m;\nm[key] = value;", "Map insertion (balanced BST) is O(log n).", "O(log n)", "easy"),
  ("unordered_map<int, int> um;\num[key] = value;", "Hash map insertion averages O(1).", "O(1)", "easy")
]

def python_advanced : List (String × String × String × String) := [
  ("def nested_sum(matrix):\n    return sum(sum(row) for row in matrix)", "Two nested iterations over n×n matrix → O(n²).", "O(n²)", "medium"),
  ("def list_comp(n):\n    return [i*2 for i in range(n)]", "List comprehension with single loop → O(n).", "O(n)", "easy"),
  ("def dict_comp(n):\n    return \x7bi: i**2 for i in range(n)\x7d", "Dictionary comprehension with n elements → O(n).", "O(n)", "easy"),
  ("arr = sorted(arr, reverse=True)", "Sorting is O(n log n) regardless of reverse flag.", "O(n log n)", "easy"),
  ("result = list(set(arr))", "Converting to set is O(n), back to list is O(n) → O(n).", "O(n)", "easy"),
  ("max_val = max(arr)", "Built-in max scans all elements once → O(n).", "O(n)", "easy")
]

def more_algorithms : List (String × String × String × String) := [
  ("DFS (Depth-First Search) on graph", "Visits each vertex and edge once → O(V + E).", "O(n)", "medium"),
  ("BFS (Breadth-First Search) on graph", "Visits each vertex and edge once → O(V + E).", "O(n)", "medium"),
  ("Dijkstra\x27s Algorithm (binary heap)", "Each vertex dequeued once, edges relaxed → O((V+E) log V).", "O(n log n)", "hard"),
  ("Prim\x27s Algorithm (binary heap)", "Similar to Dijkstra → O((V+E) log V).", "O(n log n)", "hard"),
  ("Kruskal\x27s Algorithm", "Sort edges O(E log E), union-find operations → O(E log E).", "O(n log n)", "hard"),
  ("Counting Sort", "Non-comparison sort with O(n+k) where k is range → O(n) when k=O(n).", "O(n)", "medium"),
  ("Radix Sort", "Sorts by digits, d passes of O(n+k) → O(dn) = O(n) when d is constant.", "O(n)", "medium"),
  ("Bucket Sort (average)", "Distributes into buckets and sorts → O(n) average.", "O(n)", "medium"),
  ("KMP String Matching", "Preprocessing O(m) + matching O(n) → O(m+n) = O(n).", "O(n)", "hard"),
  ("Rabin-Karp Algorithm", "Rolling hash for pattern matching → O(n+m) average.", "O(n)", "medium")
]

def mixed_questions : List (String × String × String × String × String) := [
  ("def mystery1(n):\n    result = 0\n    i = 1\n    while i < n:\n        result += i\n        i *= 2\n    return result", "Loop with i *= 2 → O(log n).", "O(log n)", "medium", "python"),
  ("def mystery2(n):\n    for i in range(n):\n        j = i\n        while j > 0:\n            print(j)\n            j //= 2", "Outer loop n times, inner loop log i times → O(n log n).", "O(n log n)", "hard", "python"),
  ("for(int i = 0; i < n; i++) \x7b\n    for(int j = 0; j < i; j++) \x7b\n        cout << i + j;\n    \x7d\n\x7d", "Outer n times, inner i times → 0+1+2+...+(n-1) = O(n²).", "O(n²)", "medium", "cpp"),
  ("def factorial(n):\n    if n <= 1:\n        return 1\n    return n * factorial(n-1)", "Single recursive call → O(n).", "O(n)", "easy", "python"),
  ("def tower_hanoi(n):\n    if n == 1:\n        return 1\n    return 2 * tower_hanoi(n-1) + 1", "T(n) = 2T(n-1) + 1 → O(2ⁿ).", "O(2ⁿ)", "hard", "python")
]

def easy_fillers : List (String × String × String × String × String) := [
  ("return len(arr)", "Getting length is O(1).", "O(1)", "easy", "python"),
  ("x = arr[index]", "Array indexing is O(1).", "O(1)", "easy", "python"),
  ("arr.clear()", "Clearing list is O(n).", "O(n)", "easy", "python"),
  ("\x27substring\x27 in string", "String search is O(n*m) worst case → O(n) typically.", "O(n)", "easy", "python"),
  ("for i in range(n):\n    arr.append(i)", "n append operations (amortized O(1) each) → O(n).", "O(n)", "easy", "python")
]

/-- The full content catalog: one field per literal pool in the script, in
script order.  Parameterising the pipeline over the catalog makes the
determinism statement ("same catalog, same output") expressible. -/
structure Catalog where
  o1_code_snippets : List (String × String)
  o1_algorithms : List (String × String)
  ologn_code_snippets : List (String × String)
  ologn_algorithms : List (String × String)
  on_code_snippets : List (String × String)
  on_algorithms : List (String × String)
  onlogn_code_snippets : List (String × String)
  onlogn_algorithms : List (String × String)
  on2_code_snippets : List (String × String)
  on2_algorithms : List (String × String)
  on3_code_snippets : List (String × String)
  on3_algorithms : List (String × String)
  o2n_code_snippets : List (String × String)
  o2n_algorithms : List (String × String)
  ofact_code_snippets : List (String × String)
  ofact_algorithms : List (String × String)
  cpp_questions : List (String × String × String × String)
  python_advanced : List (String × String × String × String)
  more_algorithms : List (String × String × String × String)
  mixed_questions : List (String × String × String × String × String)
  easy_fillers : List (String × String × String × String × String)
deriving DecidableEq, Repr

/-- The concrete catalog of the script (the literal pools above). -/
def theCatalog : Catalog :=
  ⟨o1_code_snippets, o1_algorithms, ologn_code_snippets, ologn_algorithms,
   on_code_snippets, on_algorithms, onlogn_code_snippets, onlogn_algorithms,
   on2_code_snippets, on2_algorithms, on3_code_snippets, on3_algorithms,
   o2n_code_snippets, o2n_algorithms, ofact_code_snippets, ofact_algorithms,
   cpp_questions, python_advanced, more_algorithms, mixed_questions,
   easy_fillers⟩

/-- One `for`-loop of the script: fold over a pool, appending `mk qid entry`
(the dict literal of that loop, whose `id` field is the running counter) and
incrementing `question_id`. -/
def expandPool {α : Type} (mk : Nat → α → Question) (pool : List α)
    (st : List Question × Nat) : List Question × Nat :=
  pool.foldl (fun st a => (st.1 ++ [mk st.2 a], st.2 + 1)) st

/-- Record built by the simple code loops (fixed language/complexity/difficulty). -/
def mkCodeQ (lang cc diff : String) (qid : Nat) (pe : String × String) : Question :=
  ⟨qid, QType.code, some lang, pe.1, cc, pe.2, diff, []⟩

/-- Record built by the algorithm-name loops (language `None`). -/
def mkNameQ (cc diff : String) (qid : Nat) (pe : String × String) : Question :=
  ⟨qid, QType.name, none, pe.1, cc, pe.2, diff, []⟩

/-- Record built by the O(log n) code loop: inferred language, difficulty
`"easy" if question_id % 2 == 0 else "medium"`. -/
def mkOlognCodeQ (qid : Nat) (pe : String × String) : Question :=
  ⟨qid, QType.code, some (langOf pe.1), pe.1, "O(log n)", pe.2,
   if qid % 2 == 0 then "easy" else "medium", []⟩

/-- Record built by the O(n²) code loop: inferred language, difficulty
`"easy" if question_id % 3 == 0 else "medium"`. -/
def mkOn2CodeQ (qid : Nat) (pe : String × String) : Question :=
  ⟨qid, QType.code, some (langOf pe.1), pe.1, "O(n²)", pe.2,
   if qid % 3 == 0 then "easy" else "medium", []⟩

/-- Record built by the `cpp_questions` / `python_advanced` loops
(tuple `(code, explanation, complexity, difficulty)`, fixed language). -/
def mkTupleCodeQ (lang : String) (qid : Nat)
    (t : String × String × String × String) : Question :=
  ⟨qid, QType.code, some lang, t.1, t.2.2.1, t.2.1, t.2.2.2, []⟩

/-- Record built by the `more_algorithms` loop
(tuple `(alg, explanation, complexity, difficulty)`). -/
def mkMoreAlgQ (qid : Nat) (t : String × String × String × String) : Question :=
  ⟨qid, QType.name, none, t.1, t.2.2.1, t.2.1, t.2.2.2, []⟩

/-- Record built by the `mixed_questions` loop
(tuple `(code, explanation, complexity, difficulty, lang)`). -/
def mkMixedQ (qid : Nat) (t : String × String × String × String × String) : Question :=
  ⟨qid, QType.code, some t.2.2.2.2, t.1, t.2.2.1, t.2.1, t.2.2.2.1, []⟩

/-- The working corpus: all expansion loops of the script, in script order,
threading `(questions, question_id)` starting from `([], 1)`. -/
def buildWorking (c : Catalog) : List Question × Nat :=
  ([], 1)
  |> expandPool (mkCodeQ "python" "O(1)" "easy") c.o1_code_snippets
  |> expandPool (mkNameQ "O(1)" "easy") c.o1_algorithms
  |> expandPool mkOlognCodeQ c.ologn_code_snippets
  |> expandPool (mkNameQ "O(log n)" "easy") c.ologn_algorithms
  |> expandPool (mkCodeQ "python" "O(n)" "easy") c.on_code_snippets
  |> expandPool (mkNameQ "O(n)" "easy") c.on_algorithms
  |> expandPool (mkCodeQ "python" "O(n log n)" "medium") c.onlogn_code_snippets
  |> expandPool (mkNameQ "O(n log n)" "medium") c.onlogn_algorithms
  |> expandPool mkOn2CodeQ c.on2_code_snippets
  |> expandPool (mkNameQ "O(n²)" "easy") c.on2_algorithms
  |> expandPool (mkCodeQ "python" "O(n³)" "medium") c.on3_code_snippets
  |> expandPool (mkNameQ "O(n³)" "medium") c.on3_algorithms
  |> expandPool (mkCodeQ "python" "O(2ⁿ)" "hard") c.o2n_code_snippets
  |> expandPool (mkNameQ "O(2ⁿ)" "hard") c.o2n_algorithms
  |> expandPool (mkCodeQ "python" "O(n!)" "hard") c.ofact_code_snippets
  |> expandPool (mkNameQ "O(n!)" "hard") c.ofact_algorithms
  |> expandPool (mkTupleCodeQ "cpp") c.cpp_questions
  |> expandPool (mkTupleCodeQ "python") c.python_advanced
  |> expandPool mkMoreAlgQ c.more_algorithms
  |> expandPool mkMixedQ c.mixed_questions

/-- The record one iteration of the padding loop appends: the filler entry at
index `len(questions) % len(easy_fillers)` (here `pos % filler.length`),
unpacked as `(code, explanation, complexity, difficulty, lang)`. -/
def fillerQuestion (filler : List (String × String × String × String × String))
    (pos qid : Nat) : Question :=
  let t := filler.getD (pos % filler.length) ("", "", "", "", "")
  ⟨qid, QType.code, some t.2.2.2.2, t.1, t.2.2.1, t.2.1, t.2.2.2.1, []⟩

/-- The `while len(questions) < 200` padding loop of the script. -/
def padLoop (filler : List (String × String × String × String × String))
    (qs : List Question) (qid : Nat) : List Question × Nat :=
  if h : qs.length < 200 then
    padLoop filler (qs ++ [fillerQuestion filler qs.length qid]) (qid + 1)
  else
    (qs, qid)
termination_by 200 - qs.length
decreasing_by simp [List.length_append]; omega

/-- Quota enforcement applied to an arbitrary working state: the padding loop
followed by the `questions[:200]` truncation. -/
def pipeline (filler : List (String × String × String × String × String))
    (qs : List Question) (qid : Nat) : List Question :=
  ((padLoop filler qs qid).1).take 200

/-- The `questions` sequence of the emitted output document,
`output = {"questions": questions[:200]}`, for a given catalog. -/
def outputQuestions (c : Catalog) : List Question :=
  pipeline c.easy_fillers (buildWorking c).1 (buildWorking c).2

/-- The `questions` sequence the script actually emits. -/
def output : List Question := outputQuestions theCatalog

/-- The summary counts the script prints after writing the file. -/
structure Summary where
  total : Nat
  easy : Nat
  medium : Nat
  hard : Nat
  codeCount : Nat
  nameCount : Nat
deriving DecidableEq, Repr

/-- The printed summary: each count is computed by scanning
`output["questions"]` (`sum(1 for q in output["questions"] if ...)`). -/
def emittedSummary (c : Catalog) : Summary :=
  ⟨(outputQuestions c).length,
   (outputQuestions c).countP (fun q => q.difficulty == "easy"),
   (outputQuestions c).countP (fun q => q.difficulty == "medium"),
   (outputQuestions c).countP (fun q => q.difficulty == "hard"),
   (outputQuestions c).countP (fun q => q.type == QType.code),
   (outputQuestions c).countP (fun q => q.type == QType.name)⟩

/-! ## Structural characterisation of the padding loop -/

/-- The suffix the padding loop appends when it starts at position `s` with
counter `qid` and runs for `n` iterations. -/
def padTail (filler : List (String × String × String × String × String))
    (s qid : Nat) : Nat → List Question
  | 0 => []
  | n + 1 => fillerQuestion filler s qid :: padTail filler (s + 1) (qid + 1) n

lemma padTail_length (f : List (String × String × String × String × String)) :
    ∀ (n s qid : Nat), (padTail f s qid n).length = n := by
  intro n
  induction n with
  | zero => intro s qid; rfl
  | succ n ih => intro s qid; simp [padTail, ih]

lemma padTail_map_id (f : List (String × String × String × String × String)) :
    ∀ (n s qid : Nat), (padTail f s qid n).map (fun q => q.id) = List.range' qid n := by
  intro n
  induction n with
  | zero => intro s qid; rfl
  | succ n ih => intro s qid; simp [padTail, List.range', ih, fillerQuestion]

lemma padTail_get (f : List (String × String × String × String × String)) :
    ∀ (n k s qid : Nat), k < n →
      (padTail f s qid n)[k]? = some (fillerQuestion f (s + k) (qid + k)) := by
  intro n
  induction n with
  | zero => intro k s qid h; omega
  | succ n ih =>
    intro k s qid h
    cases k with
    | zero => simp [padTail]
    | succ k =>
      have := ih k (s + 1) (qid + 1) (by omega)
      rw [show s + (k + 1) = (s + 1) + k by omega,
        show qid + (k + 1) = (qid + 1) + k by omega]
      simpa [padTail] using this

lemma padLoop_exit (f : List (String × String × String × String × String))
    (qs : List Question) (qid : Nat) (h : ¬ qs.length < 200) :
    padLoop f qs qid = (qs, qid) := by
  rw [padLoop]
  rw [dif_neg h]

lemma padLoop_step (f : List (String × String × String × String × String))
    (qs : List Question) (qid : Nat) (h : qs.length < 200) :
    padLoop f qs qid = padLoop f (qs ++ [fillerQuestion f qs.length qid]) (qid + 1) := by
  conv_lhs => rw [padLoop]
  rw [dif_pos h]

/-- The padding loop runs for exactly `200 - qs.length` iterations and appends
exactly the `padTail` suffix. -/
lemma padLoop_spec : ∀ (n : Nat) (f : List (String × String × String × String × String))
    (qs : List Question) (qid : Nat), 200 - qs.length = n →
    padLoop f qs qid = (qs ++ padTail f qs.length qid n, qid + n) := by
  intro n
  induction n with
  | zero =>
    intro f qs qid h
    rw [padLoop_exit _ _ _ (by omega)]
    simp [padTail]
  | succ n ih =>
    intro f qs qid h
    have hlt : qs.length < 200 := by omega
    rw [padLoop_step _ _ _ hlt, ih _ _ _ (by simp; omega)]
    simp [padTail, List.length_append, List.append_assoc]
    omega

lemma pipeline_eval (f : List (String × String × String × String × String))
    (qs : List Question) (qid : Nat) :
    pipeline f qs qid = (qs ++ padTail f qs.length qid (200 - qs.length)).take 200 := by
  rw [pipeline, padLoop_spec (200 - qs.length) f qs qid rfl]

lemma outQ_eval : outputQuestions theCatalog =
    ((buildWorking theCatalog).1 ++
      padTail theCatalog.easy_fillers (buildWorking theCatalog).1.length
        (buildWorking theCatalog).2 (200 - (buildWorking theCatalog).1.length)).take 200 := by
  unfold outputQuestions
  exact pipeline_eval _ _ _

lemma output_eval : output =
    ((buildWorking theCatalog).1 ++
      padTail theCatalog.easy_fillers (buildWorking theCatalog).1.length
        (buildWorking theCatalog).2 (200 - (buildWorking theCatalog).1.length)).take 200 := by
  unfold output
  exact outQ_eval

/-! ## State invariant of the expansion phase -/

/-- Invariant threaded through every expansion loop: the counter is one more
than the number of appended records, and the `id` fields so far are exactly
`1, 2, ..., length`. -/
def stateOK (st : List Question × Nat) : Prop :=
  st.2 = st.1.length + 1 ∧ st.1.map (fun q => q.id) = List.range' 1 st.1.length

lemma expandPool_ok {α : Type} {mk : Nat → α → Question} {pool : List α}
    (hmk : ∀ qid a, (mk qid a).id = qid) :
    ∀ st, stateOK st → stateOK (expandPool mk pool st) := by
  induction pool with
  | nil => intro st h; simpa [expandPool] using h
  | cons a as ih =>
    intro st h
    obtain ⟨hq, hid⟩ := h
    have hstep : stateOK (st.1 ++ [mk st.2 a], st.2 + 1) := by
      constructor
      · simp [hq]
      · show (st.1 ++ [mk st.2 a]).map (fun q => q.id) =
          List.range' 1 (st.1 ++ [mk st.2 a]).length
        rw [List.map_append, List.length_append, hid]
        simp [hmk, hq, List.range'_concat, Nat.add_comm]
    have := ih _ hstep
    simpa [expandPool] using this

lemma buildWorking_ok (c : Catalog) : stateOK (buildWorking c) := by
  unfold buildWorking
  repeat
    first
      | exact ⟨rfl, rfl⟩
      | refine expandPool_ok (fun _ _ => rfl) _ ?_

lemma range'_take_of_le (s m n : Nat) (h : m ≤ n) :
    (List.range' s n).take m = List.range' s m := by
  have e := List.range'_append s m (n - m) 1
  rw [show (n - m) + m = n by omega] at e
  have t := List.take_left (List.range' s m) (List.range' (s + 1 * m) (n - m))
  rw [show (List.range' s m).length = m by simp] at t
  rw [← e]
  exact t

/-! ## Claim theorems -/

/-- C1: the fixed catalog yields 97 working records and the emitted
`questions` sequence has exactly 200 records; in general, for every working
corpus and every non-empty filler pool the quota-enforced result has length
exactly 200. -/
theorem c1_exact_size :
    (buildWorking theCatalog).1.length = 97 ∧ output.length = 200 ∧
    ∀ (f : List (String × String × String × String × String))
      (qs : List Question) (qid : Nat), f ≠ [] →
        (pipeline f qs qid).length = 200 := by
  refine ⟨by decide, ?_, ?_⟩
  · rw [output_eval]
    decide
  · intro f qs qid _
    rw [pipeline_eval]
    simp [padTail_length]
    omega

/-- Closed instance of `c1_exact_size`: the concrete filler pool is non-empty
and enforcing the quota on an empty working corpus yields 200 records. -/
theorem c1_exact_size_witness :
    easy_fillers ≠ [] ∧ (pipeline easy_fillers [] 1).length = 200 :=
  ⟨by decide, c1_exact_size.2.2 easy_fillers [] 1 (by decide)⟩

/-- C2: for every catalog with a non-empty filler pool, the `id` values of
the emitted `questions` sequence are exactly `1, 2, ..., 200` in emission
order — dense, strictly increasing, no gaps or repeats — on every
truncation or filling path. -/
theorem c2_dense_ids (c : Catalog) : c.easy_fillers ≠ [] →
    (outputQuestions c).map (fun q => q.id) = List.range' 1 200 := by
  intro _
  obtain ⟨h2, h1⟩ := buildWorking_ok c
  unfold outputQuestions
  rw [pipeline_eval, List.map_take, List.map_append, h1, padTail_map_id, h2]
  have e := List.range'_append 1 (buildWorking c).1.length
    (200 - (buildWorking c).1.length) 1
  rw [one_mul, Nat.add_comm 1 (buildWorking c).1.length] at e
  rw [e]
  exact range'_take_of_le 1 200 _ (by omega)

/-- Closed instance of `c2_dense_ids` at the concrete catalog. -/
theorem c2_dense_ids_witness :
    theCatalog.easy_fillers ≠ [] ∧
    (outputQuestions theCatalog).map (fun q => q.id) = List.range' 1 200 :=
  ⟨by decide, c2_dense_ids theCatalog (by decide)⟩

/-- C3 as stated is false: the padding loop indexes the filler pool with the
current length `len(questions) % len(easy_fillers)`, not with
`(count - original_length) % len(filler)`.  Starting from a working corpus of
length 1 and a two-entry filler pool with prompts `"A"` and `"B"`, the first
appended record (k = 0) has prompt `"B"` — filler index 1, not the cyclic
index 0 the claim predicts. -/
theorem c3_cycle_counterexample :
    ((pipeline [("A", "ea", "O(1)", "easy", "python"),
                ("B", "eb", "O(1)", "easy", "python")]
       [⟨1, QType.code, some "python", "p", "O(1)", "e", "easy", []⟩]
       2).getD 1 default).prompt = "B" ∧
    ¬ ((pipeline [("A", "ea", "O(1)", "easy", "python"),
                  ("B", "eb", "O(1)", "easy", "python")]
         [⟨1, QType.code, some "python", "p", "O(1)", "e", "easy", []⟩]
         2).getD 1 default).prompt = "A" := by
  rw [pipeline_eval]
  exact ⟨by decide, by decide⟩

/-- C3 amended: the k-th appended filler record (k from 0) is drawn from
filler index `(original_length + k) % len(filler)` — the cycle starts at
offset `original_length % len(filler)`, not at the start of the pool — and
carries the counter value `qid + k`. -/
theorem c3_cycle_amended (f : List (String × String × String × String × String))
    (qs : List Question) (qid k : Nat) : f ≠ [] → qs.length + k < 200 →
    (pipeline f qs qid)[qs.length + k]? =
      some (fillerQuestion f (qs.length + k) (qid + k)) := by
  intro _ hk
  rw [pipeline_eval, List.getElem?_take, if_pos hk,
    List.getElem?_append_right (by omega)]
  rw [show qs.length + k - qs.length = k by omega]
  exact padTail_get f (200 - qs.length) k qs.length qid (by omega)

/-- Closed instance of `c3_cycle_amended`: padding an empty working corpus
with the concrete filler pool puts `fillerQuestion easy_fillers 0 1` at
position 0. -/
theorem c3_cycle_amended_witness :
    easy_fillers ≠ [] ∧ (0 : Nat) + 0 < 200 ∧
    (pipeline easy_fillers [] 1)[(0 : Nat)]? =
      some (fillerQuestion easy_fillers 0 1) :=
  ⟨by decide, by decide, c3_cycle_amended easy_fillers [] 1 0 (by decide) (by decide)⟩

/-- C4: in the emitted output, every `name` record has `language = None` and
every `code` record has a non-null language. -/
theorem c4_language_consistency :
    output.all (fun q =>
      (q.type != QType.name || q.language == none) &&
      (q.type != QType.code || q.language != none)) = true := by
  rw [output_eval]
  decide

/-- C5: when the working corpus exceeds 200 records the padding loop does not
run and the emitted sequence is exactly the first 200 working records in
original order (keep earliest, drop latest). -/
theorem c5_truncation (f : List (String × String × String × String × String))
    (qs : List Question) (qid : Nat) : 200 < qs.length →
    pipeline f qs qid = qs.take 200 := by
  intro h
  rw [pipeline_eval, show 200 - qs.length = 0 by omega]
  simp [padTail]

/-- Closed instance of `c5_truncation` on a 201-record working corpus. -/
theorem c5_truncation_witness :
    200 < (List.replicate 201 (default : Question)).length ∧
    pipeline easy_fillers (List.replicate 201 (default : Question)) 202 =
      (List.replicate 201 (default : Question)).take 200 :=
  ⟨by simp, c5_truncation easy_fillers _ 202 (by simp)⟩

/-- C6: in the two alternating-difficulty pools, each emitted record carries
difficulty computed from the sequential counter it had at expansion time
(equal to its `id`): the O(log n) code records (positions 10–14, ids 11–15)
are easy exactly when that counter is even, the O(n²) code records
(positions 41–45, ids 42–46) are easy exactly when it is divisible by 3, and
each such output record is identical to the working-corpus record, so no
later identifier handling changed the value. -/
theorem c6_alternating_difficulty :
    (((List.range 5).all fun j =>
      let q := output.getD (10 + j) default
      (q.id == 11 + j) &&
      (q.difficulty == (if q.id % 2 == 0 then "easy" else "medium")) &&
      (q == (buildWorking theCatalog).1.getD (10 + j) default)) &&
    ((List.range 5).all fun j =>
      let q := output.getD (41 + j) default
      (q.id == 42 + j) &&
      (q.difficulty == (if q.id % 3 == 0 then "easy" else "medium")) &&
      (q == (buildWorking theCatalog).1.getD (41 + j) default))) = true := by
  rw [output_eval]
  decide

/-- C7: in the two mixed-language code pools (O(log n), positions 10–14, and
O(n²), positions 41–45), an emitted record has language `"cpp"` exactly when
its prompt contains `"cout"` or `"int i"`, and `"python"` otherwise. -/
theorem c7_language_inference :
    (((List.range 5).all fun j =>
      let q := output.getD (10 + j) default
      ((q.language == some "cpp") ==
        (strContains q.prompt "cout" || strContains q.prompt "int i")) &&
      ((q.language == some "python") ==
        !(strContains q.prompt "cout" || strContains q.prompt "int i"))) &&
    ((List.range 5).all fun j =>
      let q := output.getD (41 + j) default
      ((q.language == some "cpp") ==
        (strContains q.prompt "cout" || strContains q.prompt "int i")) &&
      ((q.language == some "python") ==
        !(strContains q.prompt "cout" || strContains q.prompt "int i")))) = true := by
  rw [output_eval]
  decide

/-- C8: the printed summary is computed by scanning the final 200-record
sequence (each count is a `countP` over `outputQuestions`), and on the
concrete catalog those scans give 200 total, 149 easy, 32 medium, 19 hard,
154 code and 46 name records, with 149 + 32 + 19 = 200 and 154 + 46 = 200. -/
theorem c8_summary_counts :
    emittedSummary theCatalog = ⟨200, 149, 32, 19, 154, 46⟩ ∧
    (emittedSummary theCatalog).easy =
      (outputQuestions theCatalog).countP (fun q => q.difficulty == "easy") ∧
    (emittedSummary theCatalog).medium =
      (outputQuestions theCatalog).countP (fun q => q.difficulty == "medium") ∧
    (emittedSummary theCatalog).hard =
      (outputQuestions theCatalog).countP (fun q => q.difficulty == "hard") ∧
    (emittedSummary theCatalog).codeCount =
      (outputQuestions theCatalog).countP (fun q => q.type == QType.code) ∧
    (emittedSummary theCatalog).nameCount =
      (outputQuestions theCatalog).countP (fun q => q.type == QType.name) ∧
    149 + 32 + 19 = 200 ∧ 154 + 46 = 200 := by
  refine ⟨?_, rfl, rfl, rfl, rfl, rfl, rfl, rfl⟩
  unfold emittedSummary
  rw [outQ_eval]
  decide

/-- C9: the pipeline is a pure function of the catalog — running it twice on
the same unchanged catalog yields the same question sequence and the same
summary; the embedding has no other input (no randomness, no clock). -/
theorem c9_deterministic (c₁ c₂ : Catalog) : c₁ = c₂ →
    outputQuestions c₁ = outputQuestions c₂ ∧
    emittedSummary c₁ = emittedSummary c₂ := by
  intro h
  rw [h]
  exact ⟨rfl, rfl⟩

/-- Closed instance of `c9_deterministic` at the concrete catalog. -/
theorem c9_deterministic_witness :
    theCatalog = theCatalog ∧
    outputQuestions theCatalog = outputQuestions theCatalog ∧
    emittedSummary theCatalog = emittedSummary theCatalog :=
  ⟨rfl, (c9_deterministic theCatalog theCatalog rfl).1,
    (c9_deterministic theCatalog theCatalog rfl).2⟩

/-- C10: the padding loop terminates on every starting list: one record is
appended per iteration while the length is below 200, the loop exits
immediately when the length is already at least 200, and the final length is
`qs.length + (200 - qs.length)` — so it always exits after exactly
`200 - qs.length` iterations. -/
theorem c10_pad_terminates (f : List (String × String × String × String × String))
    (qs : List Question) (qid : Nat) :
    (qs.length < 200 →
      padLoop f qs qid = padLoop f (qs ++ [fillerQuestion f qs.length qid]) (qid + 1)) ∧
    (200 ≤ qs.length → padLoop f qs qid = (qs, qid)) ∧
    (padLoop f qs qid).1.length = qs.length + (200 - qs.length) := by
  refine ⟨fun h => padLoop_step f qs qid h, fun h => padLoop_exit f qs qid (by omega), ?_⟩
  rw [padLoop_spec (200 - qs.length) f qs qid rfl]
  simp [padTail_length]

/-- Closed instance of `c10_pad_terminates`: the loop exits immediately on a
200-record list. -/
theorem c10_pad_terminates_witness :
    200 ≤ (List.replicate 200 (default : Question)).length ∧
    padLoop easy_fillers (List.replicate 200 (default : Question)) 201 =
      (List.replicate 200 (default : Question), 201) :=
  ⟨by simp, (c10_pad_terminates easy_fillers _ 201).2.1 (by simp)⟩
